import Mathlib

/-!
Verification of the MeetKai bevy XR plugin repository.

This file gives a shallow embedding, in Lean 4, of the parts of the
repository relevant to the checked claims:

* `XRProjection::get_projection_matrix` from
  `src/crates/bevy_openxr/src/camera/mod.rs` (projection math over `ℚ`,
  with the tangent function passed as a parameter);
* the OpenXR session loop `runner` from `src/crates/bevy_openxr/src/lib.rs`,
  modelled as a state machine emitting a trace of observable effects;
* `create_swapchain` and `Swapchain::acquire_texture_view` from
  `src/crates/bevy_openxr/src/swapchain.rs`, with the XR runtime's
  responses given as explicit inputs;
* `AudioOutput` from `src/crates/bevy_audio/src/audio_output.rs`;
* the WebXR conversion functions from
  `src/crates/bevy_webxr/src/conversion.rs`;
* the form-factor handling of `OpenXrContext::new` and
  `OpenXrPlugin::build` from `src/crates/bevy_openxr/src/lib.rs`.
-/

namespace BevyXr

/-! ## Camera projection (`bevy_openxr/src/camera/mod.rs`) -/

/-- Field-of-view angles, as in `openxr::Fovf`.  The four angles are in
radians; the projection code only ever uses their tangents, so we keep the
angles rational and pass the tangent function explicitly. -/
structure Fovf where
  angle_left : ℚ
  angle_right : ℚ
  angle_up : ℚ
  angle_down : ℚ
deriving DecidableEq

/-- The `XRProjection` component (`camera/mod.rs`, lines 57-64). -/
structure XRProjection where
  near : ℚ
  far : ℚ
  fov : Fovf
deriving DecidableEq

/-- A 4x4 rational matrix, standing in for `bevy_math::Mat4`. -/
abbrev Mat4 := Fin 4 → Fin 4 → ℚ

/-- Interpretation of a 16-element column-major array as a 4x4 matrix,
as done by `Mat4::from_cols_array`: entry `(i, j)` is element `4 * j + i`. -/
def mat4FromColsArray (c : Fin 16 → ℚ) : Mat4 := fun i j =>
  c ⟨4 * j.val + i.val, by omega⟩

/-- Matrix product of two 4x4 matrices (`Mat4` multiplication). -/
def mat4Mul (a b : Mat4) : Mat4 := fun i j =>
  Finset.univ.sum fun k : Fin 4 => a i k * b k j

/-- Application of a 4x4 matrix to a column vector. -/
def mat4Apply (m : Mat4) (v : Fin 4 → ℚ) : Fin 4 → ℚ := fun i =>
  Finset.univ.sum fun k : Fin 4 => m i k * v k

/-- The z-reversal matrix built inside `get_projection_matrix` with
`Mat4::from_cols_array_2d` (`camera/mod.rs`, lines 154-159), given here in
the same column-major order. -/
def z_reversal : Mat4 :=
  mat4FromColsArray ![1, 0, 0, 0, 0, 1, 0, 0, 0, 0, -1, 0, 0, 0, 1, 1]

/-- Shallow embedding of `XRProjection::get_projection_matrix`
(`camera/mod.rs`, lines 90-186).  The source computes `f32::tan` of each
angle; here the tangent function `tan` is a parameter.  All the `let`
bindings mirror the source, including `far_z = -1.` (the commented-out
`far_z = self.far` is not in the compiled code) and `offset_z = 0.`. -/
def get_projection_matrix (tan : ℚ → ℚ) (p : XRProjection) : Mat4 :=
  let fov := p.fov
  let is_vulkan_api := false
  let near_z := p.near
  let far_z : ℚ := -1
  let tan_angle_left := tan fov.angle_left
  let tan_angle_right := tan fov.angle_right
  let tan_angle_down := tan fov.angle_down
  let tan_angle_up := tan fov.angle_up
  let tan_angle_width := tan_angle_right - tan_angle_left
  let tan_angle_height :=
    if is_vulkan_api then tan_angle_down - tan_angle_up
    else tan_angle_up - tan_angle_down
  let offset_z : ℚ := 0
  if far_z ≤ near_z then
    let cols : Fin 16 → ℚ :=
      ![2 / tan_angle_width, 0, 0, 0,
        0, 2 / tan_angle_height, 0, 0,
        (tan_angle_right + tan_angle_left) / tan_angle_width,
        (tan_angle_up + tan_angle_down) / tan_angle_height, -1, -1,
        0, 0, -(near_z + offset_z), 0]
    mat4Mul z_reversal (mat4FromColsArray cols)
  else
    let cols : Fin 16 → ℚ :=
      ![2 / tan_angle_width, 0, 0, 0,
        0, 2 / tan_angle_height, 0, 0,
        (tan_angle_right + tan_angle_left) / tan_angle_width,
        (tan_angle_up + tan_angle_down) / tan_angle_height,
        -(far_z + offset_z) / (far_z - near_z), -1,
        0, 0, -(far_z * (near_z + offset_z)) / (far_z - near_z), 0]
    mat4FromColsArray cols

/-- The far-plane-at-infinity projection matrix with the entries exactly as
the specification claim lists them, written row by row: `2/(tanR-tanL)` at
`(0,0)`, `(tanR+tanL)/(tanR-tanL)` at `(0,2)`, `2/(tanU-tanD)` at `(1,1)`,
`(tanU+tanD)/(tanU-tanD)` at `(1,2)`, `-1` at `(2,2)`, `-near` at `(2,3)`
and `-1` at `(3,2)`. -/
def claimedInfiniteProjection (tanL tanR tanU tanD near : ℚ) : Mat4 := fun i j =>
  ![![2 / (tanR - tanL), 0, (tanR + tanL) / (tanR - tanL), 0],
    ![0, 2 / (tanU - tanD), (tanU + tanD) / (tanU - tanD), 0],
    ![0, 0, -1, -near],
    ![0, 0, -1, 0]] i j

/-! ## The OpenXR session loop (`bevy_openxr/src/lib.rs`)

The loop body of `runner` (lines 520-858) is modelled as a transition
function over an explicit state, emitting a trace of observable effects.
Calls into the OpenXR runtime, Vulkan and the bevy app become `Effect`
constructors; the data that the loop branches on (polled events and the
frame state returned by `frame_waiter.wait()`) are inputs. -/

/-- Number of frames in flight (`lib.rs`, line 32). -/
def PIPELINE_DEPTH : Nat := 2

/-- Number of command buffers allocated by the runner
(`command_buffer_count(PIPELINE_DEPTH as u32)`, `lib.rs` lines 467-473). -/
def allocatedCommandBufferCount : Nat := PIPELINE_DEPTH

/-- State of a Vulkan fence. -/
inductive FenceState
  | signaled
  | unsignaled
deriving DecidableEq

/-- The fences created by the runner before the session loop
(`lib.rs`, lines 474-483): one per pipeline slot, each created with
`vk::FenceCreateFlags::SIGNALED`. -/
def initialFences : List FenceState :=
  (List.range PIPELINE_DEPTH).map fun _ => FenceState.signaled

/-- Session states of `openxr::SessionState` handled by the loop. -/
inductive SessionState
  | unknown
  | idle
  | ready
  | synchronized
  | visible
  | focused
  | stopping
  | exiting
  | lossPending
deriving DecidableEq

/-- The `bevy_xr::XrVisibilityState` resource
(`src/crates/bevy_xr/src/presentation.rs`, lines 19-24). -/
inductive XrVisibilityState
  | VisibleFocused
  | VisibleUnfocused
  | Hidden
deriving DecidableEq

/-- Events polled from the OpenXR instance that the loop matches on. -/
inductive XrEvent
  | eventsLost (count : Nat)
  | instanceLossPending
  | sessionStateChanged (state : SessionState)
  | referenceSpaceChangePending
  | perfSettings
  | visibilityMaskChanged
  | interactionProfileChanged
  | mainSessionVisibilityChanged
  | displayRefreshRateChanged
  | unhandled
deriving DecidableEq

/-- Which eye swapchain an effect refers to. -/
inductive Eye
  | left
  | right
deriving DecidableEq

/-- Observable effects of one pass through the session loop body.  Each
constructor corresponds to a call the loop makes into the OpenXR runtime,
Vulkan, or the bevy app. -/
inductive Effect
  | sessionBegin
  | sessionEnd
  | sleep
  | insertVisibility (v : XrVisibilityState)
  | frameWaiterWait
  | frameStreamBegin
  | frameStreamEnd (time : Int) (layerCount : Nat)
  | writeVsync (time : Int)
  | createSwapchains
  | acquireImage (eye : Eye)
  | waitImage (eye : Eye)
  | releaseImage (eye : Eye)
  | insertManualTextureView
  | spawnCamera
  | appUpdate
  | fenceWait (slot : Nat)
  | fenceReset (slot : Nat)
  | handleOutput
  | requestExit
deriving DecidableEq

/-- The `xr::FrameState` returned by `frame_waiter.wait()`. -/
structure FrameState where
  should_render : Bool
  predicted_display_time : Int
deriving DecidableEq

/-- The mutable state the session loop threads through iterations:
the `running` flag, the frame counter, the `next_vsync_time` cell, whether
the lazily-created swapchains and camera exist, and the current
`XrVisibilityState` resource (if inserted). -/
structure LoopState where
  running : Bool
  frame : Nat
  nextVsyncTime : Int
  swapchainCreated : Bool
  camerasSpawned : Bool
  visibility : Option XrVisibilityState
deriving DecidableEq

/-- Handling of one polled event (`lib.rs`, lines 521-632).  Returns the
new state, the emitted effects, and whether the `'session_loop` is broken
out of. -/
def processEvent (st : LoopState) : XrEvent → LoopState × List Effect × Bool
  | .eventsLost _ => (st, [], false)
  | .instanceLossPending => (st, [], true)
  | .sessionStateChanged s =>
    match s with
    | .unknown => (st, [], false)
    | .idle => (st, [], false)
    | .ready => ({ st with running := true }, [.sessionBegin], false)
    | .synchronized =>
      ({ st with visibility := some .Hidden }, [.insertVisibility .Hidden], false)
    | .visible =>
      ({ st with visibility := some .VisibleUnfocused },
        [.insertVisibility .VisibleUnfocused], false)
    | .focused =>
      ({ st with visibility := some .VisibleFocused },
        [.insertVisibility .VisibleFocused], false)
    | .stopping => ({ st with running := false }, [.sessionEnd], false)
    | .exiting => (st, [], true)
    | .lossPending => (st, [], true)
  | .referenceSpaceChangePending => (st, [], false)
  | .perfSettings => (st, [], false)
  | .visibilityMaskChanged => (st, [], false)
  | .interactionProfileChanged => (st, [], false)
  | .mainSessionVisibilityChanged => (st, [], false)
  | .displayRefreshRateChanged => (st, [], false)
  | .unhandled => (st, [], false)

/-- The `while let Some(event) = ... poll_event` loop at the top of each
iteration, stopping early when an event breaks the session loop. -/
def pollEvents (st : LoopState) : List XrEvent → LoopState × List Effect × Bool
  | [] => (st, [], false)
  | e :: rest =>
    let r := processEvent st e
    if r.2.2 then (r.1, r.2.1, true)
    else
      let r2 := pollEvents r.1 rest
      (r2.1, r.2.1 ++ r2.2.1, r2.2.2)

/-- The remainder of a loop iteration after event polling
(`lib.rs`, lines 634-857): sleep and re-poll when not running; otherwise
wait for a frame, begin the frame stream, and either end immediately with
no layers (when the runtime declines rendering) or run the full render
path.  `appExit` tells whether an `AppExit` event is pending at the end of
the frame. -/
def frameBody (st : LoopState) (fs : FrameState) (appExit : Bool) :
    LoopState × List Effect :=
  if !st.running then
    (st, [.sleep])
  else if !fs.should_render then
    (st, [.frameWaiterWait, .frameStreamBegin,
          .frameStreamEnd fs.predicted_display_time 0])
  else
    ({ st with
        nextVsyncTime := fs.predicted_display_time,
        swapchainCreated := true,
        camerasSpawned := true,
        frame := st.frame + 1 },
      [.frameWaiterWait, .frameStreamBegin, .writeVsync fs.predicted_display_time]
        ++ (if st.swapchainCreated then [] else [.createSwapchains])
        ++ [.acquireImage .right, .acquireImage .left, .insertManualTextureView]
        ++ (if st.camerasSpawned then [] else [.spawnCamera])
        ++ [.appUpdate, .waitImage .right, .waitImage .left,
            .fenceWait (st.frame % PIPELINE_DEPTH),
            .fenceReset (st.frame % PIPELINE_DEPTH),
            .releaseImage .left, .releaseImage .right,
            .frameStreamEnd fs.predicted_display_time 1, .handleOutput]
        ++ (if appExit then [.requestExit] else []))

/-- One full iteration of the `'session_loop`: poll all pending events,
then (unless the loop was broken) run the frame body. -/
def loopIteration (st : LoopState) (events : List XrEvent) (fs : FrameState)
    (appExit : Bool) : LoopState × List Effect × Bool :=
  let r := pollEvents st events
  if r.2.2 then (r.1, r.2.1, true)
  else
    let r2 := frameBody r.1 fs appExit
    (r2.1, r.2.1 ++ r2.2, false)

/-- Input of one loop iteration: the events pending at its start, the frame
state the waiter would return, and whether an `AppExit` event is pending. -/
structure IterInput where
  events : List XrEvent
  frameState : FrameState
  appExit : Bool

/-- The session loop run over a list of per-iteration inputs, concatenating
the emitted effect traces and stopping when the loop breaks. -/
def runLoop (st : LoopState) : List IterInput → List Effect
  | [] => []
  | input :: rest =>
    let r := loopIteration st input.events input.frameState input.appExit
    r.2.1 ++ (if r.2.2 then [] else runLoop r.1 rest)

/-- Checks that every frame submission (`frameStreamEnd`) in a trace occurs
while the session is running: the boolean argument tracks whether the most
recent of `sessionBegin`/`sessionEnd` was a begin. -/
def submitsBracketed : Bool → List Effect → Bool
  | _, [] => true
  | _, .sessionBegin :: rest => submitsBracketed true rest
  | _, .sessionEnd :: rest => submitsBracketed false rest
  | b, .frameStreamEnd _ _ :: rest => b && submitsBracketed b rest
  | b, _ :: rest => submitsBracketed b rest

/-! ## Swapchains (`bevy_openxr/src/swapchain.rs`) -/

/-- Texture formats relevant to the swapchain code. -/
inductive TextureFormat
  | Rgba8UnormSrgb
  | Bgra8UnormSrgb
deriving DecidableEq

/-- A 2D resolution (`vk::Extent2D`). -/
structure Extent2D where
  width : Nat
  height : Nat
deriving DecidableEq

/-- A wgpu texture wrapping a raw Vulkan image. -/
structure WgpuTexture where
  raw_image : Nat
  width : Nat
  height : Nat
  format : TextureFormat
deriving DecidableEq

deriving instance DecidableEq for Except

/-- The XR runtime's swapchain handle, with its observable behaviour: the
images it enumerates and its responses to `acquire_image` and
`wait_image`.  Error codes are `Int`s standing for `xr::sys::Result`. -/
structure XrSwapchainHandle where
  images : List Nat
  acquireResult : Except Int Nat
  waitResult : Except Int Unit
deriving DecidableEq

/-- The `Swapchain` struct (`swapchain.rs`, lines 106-112). -/
structure Swapchain where
  handle : XrSwapchainHandle
  resolution : Extent2D
  textures : List WgpuTexture
deriving DecidableEq

/-- The `OpenXrError` enum (`lib.rs`, lines 75-84). -/
inductive OpenXrError
  | InstanceCreation (code : Int)
  | UnsupportedFormFactor
  | UnavailableFormFactor
  | GraphicsCreation
  | SwapchainCreation (code : Int)
deriving DecidableEq

/-- The wgpu render texture built for one enumerated swapchain image
(`swapchain.rs`, lines 59-96): `texture_from_raw` followed by
`create_texture_from_hal`, always at the swapchain resolution and with
format `Rgba8UnormSrgb`. -/
def textureFromRaw (image : Nat) (resolution : Extent2D) : WgpuTexture :=
  { raw_image := image
    width := resolution.width
    height := resolution.height
    format := .Rgba8UnormSrgb }

/-- Shallow embedding of `create_swapchain` (`swapchain.rs`, lines 25-104).
The XR runtime's response to `xr_session.create_swapchain` (the created
handle, or an error code) is the parameter `createResult`. -/
def create_swapchain (createResult : Except Int XrSwapchainHandle)
    (resolution : Extent2D) : Except OpenXrError Swapchain :=
  match createResult with
  | .error e => .error (.SwapchainCreation e)
  | .ok handle =>
    let images := handle.images
    let textures := images.map fun image => textureFromRaw image resolution
    .ok { handle := handle, resolution := resolution, textures := textures }

/-- A view of a wgpu texture, as created by `create_view`. -/
structure TextureView where
  texture : WgpuTexture
  format : TextureFormat
deriving DecidableEq

/-- The view created by `acquire_texture_view` (`swapchain.rs`, 120-129). -/
def createView (tex : WgpuTexture) : TextureView :=
  { texture := tex, format := .Rgba8UnormSrgb }

/-- Result of `Swapchain::acquire_texture_view`: a runtime error is
propagated as `Err`; indexing past the texture list makes the `unwrap` on
`textures.get(idx)` panic. -/
inductive AcquireOutcome
  | panicked
  | err (code : Int)
  | ok (view : TextureView)
deriving DecidableEq

/-- Shallow embedding of `Swapchain::acquire_texture_view`
(`swapchain.rs`, lines 115-132): acquire an image index from the runtime,
wait for it, and return a view of the texture at exactly that index. -/
def Swapchain.acquire_texture_view (sc : Swapchain) : AcquireOutcome :=
  match sc.handle.acquireResult with
  | .error e => .err e
  | .ok idx =>
    match sc.handle.waitResult with
    | .error e => .err e
    | .ok _ =>
      match sc.textures.get? idx with
      | none => .panicked
      | some tex => .ok (createView tex)

/-! ## Audio output (`bevy_audio/src/audio_output.rs`) -/

/-- Playback settings carried by a queued audio config (`settings.repeat`,
`settings.speed`, `settings.volume` in the source; `repeat` is renamed
`repeatPlayback` because it is reserved in Lean). -/
structure AudioSettings where
  repeatPlayback : Bool
  speed : ℚ
  volume : ℚ
deriving DecidableEq

/-- Spatial playback settings: emitter and ear positions. -/
structure SpatialSettings where
  emitter : ℚ × ℚ × ℚ
  left_ear : ℚ × ℚ × ℚ
  right_ear : ℚ × ℚ × ℚ
deriving DecidableEq

/-- One entry of the audio queue: handles are `Nat`s. -/
structure AudioConfig where
  source_handle : Nat
  sink_handle : Nat
  settings : AudioSettings
  spatial : Option SpatialSettings
deriving DecidableEq

/-- What a rodio sink has been given to play. -/
inductive QueuedSource
  | once (source : Nat)
  | repeatInfinite (source : Nat)
deriving DecidableEq

/-- A rodio `Sink`: the queued source plus its speed and volume
(both 1 on creation). -/
structure Sink where
  queued : QueuedSource
  speed : ℚ
  volume : ℚ
deriving DecidableEq

/-- A rodio `SpatialSink`. -/
structure SpatialSink where
  queued : QueuedSource
  emitter : ℚ × ℚ × ℚ
  left_ear : ℚ × ℚ × ℚ
  right_ear : ℚ × ℚ × ℚ
  speed : ℚ
  volume : ℚ
deriving DecidableEq

/-- The `AudioOutput` resource (`audio_output.rs`, lines 11-18): only the
presence of the output stream handle matters to the embedded code. -/
structure AudioOutput where
  stream_handle : Option Unit

/-- Shallow embedding of `AudioOutput::play_source`
(`audio_output.rs`, lines 46-56): when a stream handle exists, create a
sink and append the (possibly infinitely repeated) decoded source. -/
def AudioOutput.play_source (o : AudioOutput) (audio_source : Nat)
    (repeatPlayback : Bool) : Option Sink :=
  o.stream_handle.map fun _ =>
    { queued := if repeatPlayback then .repeatInfinite audio_source
        else .once audio_source
      speed := 1
      volume := 1 }

/-- Shallow embedding of `AudioOutput::play_spatial_source`
(`audio_output.rs`, lines 58-79). -/
def AudioOutput.play_spatial_source (o : AudioOutput) (audio_source : Nat)
    (repeatPlayback : Bool) (spatial : SpatialSettings) : Option SpatialSink :=
  o.stream_handle.map fun _ =>
    { queued := if repeatPlayback then .repeatInfinite audio_source
        else .once audio_source
      emitter := spatial.emitter
      left_ear := spatial.left_ear
      right_ear := spatial.right_ear
      speed := 1
      volume := 1 }

/-- Storing a sink in the `Assets<AudioSink>` map (`sinks.set`). -/
def setSink (sinks : Nat → Option Sink) (handle : Nat) (s : Sink) :
    Nat → Option Sink :=
  fun k => if k = handle then some s else sinks k

/-- Storing a spatial sink in the `Assets<SpatialAudioSink>` map. -/
def setSpatialSink (sinks : Nat → Option SpatialSink) (handle : Nat)
    (s : SpatialSink) : Nat → Option SpatialSink :=
  fun k => if k = handle then some s else sinks k

/-- Result of a `try_play_queued` call: the remaining queue, both sink
maps, and the number of `pop_front` operations performed. -/
structure AudioRunResult where
  queue : List AudioConfig
  sinks : Nat → Option Sink
  spatial_sinks : Nat → Option SpatialSink
  pops : Nat

/-- The `while i < len` loop of `try_play_queued`
(`audio_output.rs`, lines 90-117), with the remaining iteration count as
first argument.  Each iteration pops the front config; a loaded config is
played (when possible) and dropped, an unloaded one is pushed back.  The
`pop_front().unwrap()` can only see an empty queue if the iteration count
exceeds the queue length, which never happens from the entry point. -/
def try_play_queued_aux (o : AudioOutput) (assets : Nat → Option Nat) :
    Nat → List AudioConfig → (Nat → Option Sink) → (Nat → Option SpatialSink) →
    Nat → AudioRunResult
  | 0, queue, sinks, spatial_sinks, pops => ⟨queue, sinks, spatial_sinks, pops⟩
  | _ + 1, [], sinks, spatial_sinks, pops => ⟨[], sinks, spatial_sinks, pops⟩
  | i + 1, config :: rest, sinks, spatial_sinks, pops =>
    match assets config.source_handle with
    | some audio_source =>
      match config.spatial with
      | some spatial =>
        match o.play_spatial_source audio_source config.settings.repeatPlayback
            spatial with
        | some sink =>
          let sink :=
            { sink with speed := config.settings.speed,
                        volume := config.settings.volume }
          try_play_queued_aux o assets i rest sinks
            (setSpatialSink spatial_sinks config.sink_handle sink) (pops + 1)
        | none =>
          try_play_queued_aux o assets i rest sinks spatial_sinks (pops + 1)
      | none =>
        match o.play_source audio_source config.settings.repeatPlayback with
        | some sink =>
          let sink :=
            { sink with speed := config.settings.speed,
                        volume := config.settings.volume }
          try_play_queued_aux o assets i rest
            (setSink sinks config.sink_handle sink) spatial_sinks (pops + 1)
        | none =>
          try_play_queued_aux o assets i rest sinks spatial_sinks (pops + 1)
    | none =>
      try_play_queued_aux o assets i (rest ++ [config]) sinks spatial_sinks
        (pops + 1)

/-- Shallow embedding of `AudioOutput::try_play_queued`
(`audio_output.rs`, lines 81-118): `len = queue.len()` iterations of the
pop loop.  `assets` maps a source handle to its loaded asset, if any. -/
def try_play_queued (o : AudioOutput) (assets : Nat → Option Nat)
    (queue : List AudioConfig) (sinks : Nat → Option Sink)
    (spatial_sinks : Nat → Option SpatialSink) : AudioRunResult :=
  try_play_queued_aux o assets queue.length queue sinks spatial_sinks 0

/-- The sink a loaded non-spatial config ends up stored as: play the
decoded source, then `set_speed` and `set_volume` from its settings. -/
def mkSink (audio_source : Nat) (settings : AudioSettings) : Sink :=
  { queued := if settings.repeatPlayback then .repeatInfinite audio_source
      else .once audio_source
    speed := settings.speed
    volume := settings.volume }

/-- The spatial sink a loaded spatial config ends up stored as. -/
def mkSpatialSink (audio_source : Nat) (spatial : SpatialSettings)
    (settings : AudioSettings) : SpatialSink :=
  { queued := if settings.repeatPlayback then .repeatInfinite audio_source
      else .once audio_source
    emitter := spatial.emitter
    left_ear := spatial.left_ear
    right_ear := spatial.right_ear
    speed := settings.speed
    volume := settings.volume }

/-- Effect of one processed config on the `Assets<AudioSink>` map. -/
def applySink (o : AudioOutput) (assets : Nat → Option Nat)
    (sinks : Nat → Option Sink) (c : AudioConfig) : Nat → Option Sink :=
  match assets c.source_handle, c.spatial, o.stream_handle with
  | some src, none, some _ => setSink sinks c.sink_handle (mkSink src c.settings)
  | _, _, _ => sinks

/-- Effect of one processed config on the `Assets<SpatialAudioSink>` map. -/
def applySpatialSink (o : AudioOutput) (assets : Nat → Option Nat)
    (sinks : Nat → Option SpatialSink) (c : AudioConfig) :
    Nat → Option SpatialSink :=
  match assets c.source_handle, c.spatial, o.stream_handle with
  | some src, some sp, some _ =>
    setSpatialSink sinks c.sink_handle (mkSpatialSink src sp c.settings)
  | _, _, _ => sinks

/-- The `Assets<AudioSink>` map after a queue has been processed. -/
def storeSinks (o : AudioOutput) (assets : Nat → Option Nat)
    (q : List AudioConfig) (sinks : Nat → Option Sink) : Nat → Option Sink :=
  q.foldl (applySink o assets) sinks

/-- The `Assets<SpatialAudioSink>` map after a queue has been processed. -/
def storeSpatialSinks (o : AudioOutput) (assets : Nat → Option Nat)
    (q : List AudioConfig) (sinks : Nat → Option SpatialSink) :
    Nat → Option SpatialSink :=
  q.foldl (applySpatialSink o assets) sinks

/-! ## WebXR conversions (`bevy_webxr/src/conversion.rs`)

The `bevy_xr` enums are matched exhaustively (no wildcard arm) by the
conversion code, which pins down their exact variant lists. -/

/-- The `web_sys::XrSessionMode` enum (WebXR's three session modes). -/
inductive WebXrSessionMode
  | Inline
  | ImmersiveVr
  | ImmersiveAr
deriving DecidableEq, Fintype

/-- The `bevy_xr::XrSessionMode` enum. -/
inductive BevyXrSessionMode
  | ImmersiveVR
  | ImmersiveAR
  | InlineVR
  | InlineAR
deriving DecidableEq, Fintype

/-- The `web_sys::XrReferenceSpaceType` enum. -/
inductive WebXrReferenceSpaceType
  | Viewer
  | Local
  | LocalFloor
  | BoundedFloor
  | Unbounded
deriving DecidableEq, Fintype

/-- The `bevy_xr::interaction::XrReferenceSpaceType` enum. -/
inductive BevyXrReferenceSpaceType
  | Viewer
  | Local
  | Stage
deriving DecidableEq, Fintype

/-- The `XrFrom<web_sys::XrSessionMode> for bevy_xr::XrSessionMode` impl
(`conversion.rs`, lines 24-33). -/
def xrSessionModeFromWeb : WebXrSessionMode → BevyXrSessionMode
  | .Inline => .InlineVR
  | .ImmersiveVr => .ImmersiveVR
  | .ImmersiveAr => .ImmersiveAR

/-- The `XrFrom<bevy_xr::XrSessionMode> for web_sys::XrSessionMode` impl
(`conversion.rs`, lines 35-45). -/
def xrSessionModeToWeb : BevyXrSessionMode → WebXrSessionMode
  | .ImmersiveVR => .ImmersiveVr
  | .ImmersiveAR => .ImmersiveAr
  | .InlineVR => .Inline
  | .InlineAR => .Inline

/-- The `XrFrom<web_sys::XrReferenceSpaceType>` impl
(`conversion.rs`, lines 47-65); the unsupported variants panic, modelled
as `none`. -/
def xrReferenceSpaceTypeFromWeb :
    WebXrReferenceSpaceType → Option BevyXrReferenceSpaceType
  | .Viewer => some .Viewer
  | .Local => some .Local
  | .LocalFloor => some .Stage
  | .BoundedFloor => none
  | .Unbounded => none

/-- The `XrFrom<bevy_xr::interaction::XrReferenceSpaceType>` impl
(`conversion.rs`, lines 67-81). -/
def xrReferenceSpaceTypeToWeb :
    BevyXrReferenceSpaceType → WebXrReferenceSpaceType
  | .Viewer => .Viewer
  | .Local => .Local
  | .Stage => .LocalFloor

/-! ## Form factors (`bevy_openxr/src/lib.rs`, `OpenXrContext::new`) -/

/-- The `OpenXrFormFactor` enum (`lib.rs`, lines 36-40). -/
inductive OpenXrFormFactor
  | HeadMountedDisplay
  | Handheld
deriving DecidableEq

/-- The runtime's `xr::FormFactor` values. -/
inductive XrRuntimeFormFactor
  | headMountedDisplay
  | handheldDisplay
deriving DecidableEq

/-- The form-factor match inside `OpenXrContext::new`
(`lib.rs`, lines 173-176): both variants map to
`xr::FormFactor::HEAD_MOUNTED_DISPLAY`. -/
def formFactorToXr : OpenXrFormFactor → XrRuntimeFormFactor
  | .HeadMountedDisplay => .headMountedDisplay
  | .Handheld => .headMountedDisplay

/-- The two `instance.system` errors `OpenXrContext::new` maps (any other
error panics). -/
inductive SysErr
  | formFactorUnsupported
  | formFactorUnavailable
deriving DecidableEq

/-- The system-request portion of `OpenXrContext::new`
(`lib.rs`, lines 173-182): convert the form factor and ask the runtime for
a system.  `systemFn` is the runtime's response to `instance.system`; the
returned system id is a `Nat`. -/
def openXrContextNewSystem (systemFn : XrRuntimeFormFactor → Except SysErr Nat)
    (form_factor : OpenXrFormFactor) : Except OpenXrError Nat :=
  let ff := formFactorToXr form_factor
  match systemFn ff with
  | .error .formFactorUnsupported => .error .UnsupportedFormFactor
  | .error .formFactorUnavailable => .error .UnavailableFormFactor
  | .ok system => .ok system

/-- Outcome of `OpenXrPlugin::build`'s context creation: a context, or a
panic carrying the error of the failed fallback attempt. -/
inductive BuildOutcome
  | ok (system : Nat)
  | panicked (e : OpenXrError)
deriving DecidableEq

/-- The fallback in `OpenXrPlugin::build` (`lib.rs`, lines 244-276): try
`HeadMountedDisplay` first, then `Handheld`, and panic if both fail. -/
def openXrPluginBuild (systemFn : XrRuntimeFormFactor → Except SysErr Nat) :
    BuildOutcome :=
  match openXrContextNewSystem systemFn .HeadMountedDisplay with
  | .ok system => .ok system
  | .error _ =>
    match openXrContextNewSystem systemFn .Handheld with
    | .ok system => .ok system
    | .error e => .panicked e

end BevyXr

namespace BevyXr

/-! ## Helper lemmas for the session-loop trace invariant -/

/-- Event handling never emits a frame submission, and the
`sessionBegin`/`sessionEnd` effects it emits track the `running` flag. -/
theorem processEvent_bracket (st : LoopState) (e : XrEvent) (l : List Effect) :
    submitsBracketed st.running ((processEvent st e).2.1 ++ l) =
      submitsBracketed (processEvent st e).1.running l := by
  cases e with
  | sessionStateChanged s => cases s <;> simp [processEvent, submitsBracketed]
  | eventsLost n => simp [processEvent]
  | instanceLossPending => simp [processEvent]
  | referenceSpaceChangePending => simp [processEvent]
  | perfSettings => simp [processEvent]
  | visibilityMaskChanged => simp [processEvent]
  | interactionProfileChanged => simp [processEvent]
  | mainSessionVisibilityChanged => simp [processEvent]
  | displayRefreshRateChanged => simp [processEvent]
  | unhandled => simp [processEvent]

/-- The event-polling loop never emits a frame submission and keeps the
bracket state in step with the `running` flag. -/
theorem pollEvents_bracket (events : List XrEvent) (st : LoopState)
    (l : List Effect) :
    submitsBracketed st.running ((pollEvents st events).2.1 ++ l) =
      submitsBracketed (pollEvents st events).1.running l := by
  induction events generalizing st with
  | nil => rfl
  | cons e rest ih =>
      simp only [pollEvents]
      cases hb : (processEvent st e).2.2
      · simp only [hb, Bool.false_eq_true, if_false]
        rw [List.append_assoc, processEvent_bracket, ih]
      · simp only [hb, if_true]
        exact processEvent_bracket st e l

/-- The frame body never changes the `running` flag. -/
theorem frameBody_running (st : LoopState) (fs : FrameState) (appExit : Bool) :
    (frameBody st fs appExit).1.running = st.running := by
  cases hr : st.running <;> cases hsr : fs.should_render <;>
    simp [frameBody, hr, hsr]

/-- The frame body submits frames only while `running` is set, and emits no
session begin/end effects. -/
theorem frameBody_bracket (st : LoopState) (fs : FrameState) (appExit : Bool)
    (l : List Effect) :
    submitsBracketed st.running ((frameBody st fs appExit).2 ++ l) =
      submitsBracketed st.running l := by
  cases hr : st.running
  · simp [frameBody, hr, submitsBracketed]
  · cases hsr : fs.should_render
    · simp [frameBody, hr, hsr, submitsBracketed]
    · cases hsw : st.swapchainCreated <;> cases hcam : st.camerasSpawned <;>
        cases appExit <;> simp [frameBody, hr, hsr, hsw, hcam, submitsBracketed]

/-- Every frame submitted over an entire run of the session loop happens
between a `session.begin` and the matching `session.end`. -/
theorem runLoop_bracket (inputs : List IterInput) (st : LoopState) :
    submitsBracketed st.running (runLoop st inputs) = true := by
  induction inputs generalizing st with
  | nil => cases st.running <;> rfl
  | cons input rest ih =>
      simp only [runLoop, loopIteration]
      cases hb : (pollEvents st input.events).2.2
      · simp only [hb, Bool.false_eq_true, if_false]
        rw [List.append_assoc, pollEvents_bracket, frameBody_bracket,
          ← frameBody_running (pollEvents st input.events).1 input.frameState
            input.appExit]
        exact ih _
      · simp only [hb, if_true]
        have h := pollEvents_bracket input.events st []
        simpa using h

end BevyXr

namespace BevyXr

/-- C2: the OpenXR session loop follows the session state machine.  A
`SessionStateChanged(READY)` event makes the runner call `session.begin`
and set `running`; `STOPPING` makes it call `session.end` and clear
`running`; `EXITING` and `LOSS_PENDING` break the loop; an iteration whose
`running` flag is false only sleeps (it never waits on the frame waiter nor
submits a frame); and over any whole run of the loop, every frame
submission happens between a `session.begin` and the matching
`session.end`. -/
theorem session_loop_state_machine :
    (∀ st : LoopState, processEvent st (.sessionStateChanged .ready) =
        ({ st with running := true }, [.sessionBegin], false)) ∧
    (∀ st : LoopState, processEvent st (.sessionStateChanged .stopping) =
        ({ st with running := false }, [.sessionEnd], false)) ∧
    (∀ st : LoopState,
        processEvent st (.sessionStateChanged .exiting) = (st, [], true)) ∧
    (∀ st : LoopState,
        processEvent st (.sessionStateChanged .lossPending) = (st, [], true)) ∧
    (∀ (st : LoopState) (fs : FrameState) (appExit : Bool),
        st.running = false → frameBody st fs appExit = (st, [.sleep])) ∧
    (∀ (st : LoopState) (inputs : List IterInput),
        submitsBracketed st.running (runLoop st inputs) = true) := by
  refine ⟨fun st => rfl, fun st => rfl, fun st => rfl, fun st => rfl, ?_, ?_⟩
  · intro st fs appExit h
    simp [frameBody, h]
  · intro st inputs
    exact runLoop_bracket inputs st

/-- Witness for C2: at a concrete non-running state the frame body only
sleeps, and a concrete run whose first iteration receives `READY` has a
fully bracketed trace. -/
theorem session_loop_state_machine_witness :
    frameBody ⟨false, 0, 0, false, false, none⟩ ⟨true, 5⟩ false =
      (⟨false, 0, 0, false, false, none⟩, [.sleep]) ∧
    submitsBracketed false
      (runLoop ⟨false, 0, 0, false, false, none⟩
        [⟨[.sessionStateChanged .ready], ⟨true, 5⟩, false⟩]) = true :=
  ⟨session_loop_state_machine.2.2.2.2.1 _ _ _ rfl,
   session_loop_state_machine.2.2.2.2.2 ⟨false, 0, 0, false, false, none⟩ _⟩

/-- C6: session visibility states map to the `XrVisibilityState` resource
exactly as: `SYNCHRONIZED` inserts `Hidden`, `VISIBLE` inserts
`VisibleUnfocused`, `FOCUSED` inserts `VisibleFocused`, while `UNKNOWN`
and `IDLE` insert nothing (the resource is unchanged). -/
theorem visibility_state_mapping :
    (∀ st : LoopState, processEvent st (.sessionStateChanged .synchronized) =
        ({ st with visibility := some .Hidden },
          [.insertVisibility .Hidden], false)) ∧
    (∀ st : LoopState, processEvent st (.sessionStateChanged .visible) =
        ({ st with visibility := some .VisibleUnfocused },
          [.insertVisibility .VisibleUnfocused], false)) ∧
    (∀ st : LoopState, processEvent st (.sessionStateChanged .focused) =
        ({ st with visibility := some .VisibleFocused },
          [.insertVisibility .VisibleFocused], false)) ∧
    (∀ st : LoopState,
        processEvent st (.sessionStateChanged .unknown) = (st, [], false)) ∧
    (∀ st : LoopState,
        processEvent st (.sessionStateChanged .idle) = (st, [], false)) :=
  ⟨fun st => rfl, fun st => rfl, fun st => rfl, fun st => rfl, fun st => rfl⟩

/-- C4: the frame loop is double-buffered with pipeline depth exactly 2:
`PIPELINE_DEPTH = 2` command buffers are allocated and 2 fences are
created, all in the signaled state; before submitting frame `n` the runner
waits for and resets the fence at index `n mod 2` (and the fence index is
always below `PIPELINE_DEPTH`, repeating with period 2, so at most two
frames are in flight). -/
theorem double_buffered_pipeline_depth :
    PIPELINE_DEPTH = 2 ∧
    allocatedCommandBufferCount = 2 ∧
    initialFences.length = 2 ∧
    (∀ f ∈ initialFences, f = .signaled) ∧
    (∀ (st : LoopState) (fs : FrameState) (appExit : Bool),
        st.running = true → fs.should_render = true →
        (frameBody st fs appExit).2 =
          [.frameWaiterWait, .frameStreamBegin,
              .writeVsync fs.predicted_display_time]
            ++ (if st.swapchainCreated then [] else [.createSwapchains])
            ++ [.acquireImage .right, .acquireImage .left,
                .insertManualTextureView]
            ++ (if st.camerasSpawned then [] else [.spawnCamera])
            ++ [.appUpdate, .waitImage .right, .waitImage .left,
                .fenceWait (st.frame % PIPELINE_DEPTH),
                .fenceReset (st.frame % PIPELINE_DEPTH),
                .releaseImage .left, .releaseImage .right,
                .frameStreamEnd fs.predicted_display_time 1, .handleOutput]
            ++ (if appExit then [.requestExit] else []) ∧
        (frameBody st fs appExit).1.frame = st.frame + 1) ∧
    (∀ n : Nat, n % PIPELINE_DEPTH < 2 ∧
        (n + PIPELINE_DEPTH) % PIPELINE_DEPTH = n % PIPELINE_DEPTH) := by
  refine ⟨rfl, rfl, rfl, ?_, ?_, ?_⟩
  · intro f hf
    simp [initialFences, PIPELINE_DEPTH] at hf
    exact hf
  · intro st fs appExit h1 h2
    constructor <;> simp [frameBody, h1, h2]
  · intro n
    constructor
    · simp only [PIPELINE_DEPTH]
      omega
    · simp only [PIPELINE_DEPTH]
      omega

/-- Witness for C4 at a concrete running state with `should_render`. -/
theorem double_buffered_pipeline_depth_witness :
    (frameBody ⟨true, 3, 0, true, true, none⟩ ⟨true, 7⟩ false).2 =
      [.frameWaiterWait, .frameStreamBegin, .writeVsync 7]
        ++ ([] : List Effect)
        ++ [.acquireImage .right, .acquireImage .left, .insertManualTextureView]
        ++ ([] : List Effect)
        ++ [.appUpdate, .waitImage .right, .waitImage .left,
            .fenceWait 1, .fenceReset 1,
            .releaseImage .left, .releaseImage .right,
            .frameStreamEnd 7 1, .handleOutput]
        ++ ([] : List Effect) ∧
    (frameBody ⟨true, 3, 0, true, true, none⟩ ⟨true, 7⟩ false).1.frame = 4 :=
  double_buffered_pipeline_depth.2.2.2.2.1 ⟨true, 3, 0, true, true, none⟩
    ⟨true, 7⟩ false rfl rfl

/-- C5: in every running iteration where the runtime sets
`should_render = false`, the runner still waits for the frame, brackets it
with `frame_stream.begin` and `frame_stream.end` with an empty layer list
at the predicted display time, and does nothing else: the state (including
`next_vsync_time` and the frame counter) is unchanged and no swapchain,
app-update or fence effect is emitted. -/
theorem declined_frame_protocol (st : LoopState) (fs : FrameState)
    (appExit : Bool) (hrun : st.running = true)
    (hsr : fs.should_render = false) :
    frameBody st fs appExit =
      (st, [.frameWaiterWait, .frameStreamBegin,
            .frameStreamEnd fs.predicted_display_time 0]) := by
  simp [frameBody, hrun, hsr]

/-- Witness for C5 at a concrete running state. -/
theorem declined_frame_protocol_witness :
    frameBody ⟨true, 3, 9, true, true, none⟩ ⟨false, 7⟩ false =
      (⟨true, 3, 9, true, true, none⟩,
        [.frameWaiterWait, .frameStreamBegin, .frameStreamEnd 7 0]) :=
  declined_frame_protocol ⟨true, 3, 9, true, true, none⟩ ⟨false, 7⟩ false rfl rfl

end BevyXr

namespace BevyXr

/-- C3: a `Swapchain` is a ring of textures indexed by the compositor.
`create_swapchain` builds exactly one wgpu render texture per image
enumerated from the runtime's swapchain, in the same order, at the
swapchain resolution and with format `Rgba8UnormSrgb`;
`acquire_texture_view` acquires an index from the runtime handle, waits
for the image, and returns a view of the texture at exactly that index;
errors from `acquire_image` or `wait_image` are propagated as `Err`, and
an index at or past the texture count panics. -/
theorem swapchain_ring_spec :
    (∀ (h : XrSwapchainHandle) (res : Extent2D) (sc : Swapchain),
        create_swapchain (.ok h) res = .ok sc →
        sc.textures = (h.images.map fun image => textureFromRaw image res) ∧
        sc.textures.length = h.images.length ∧
        ∀ t ∈ sc.textures, t.format = .Rgba8UnormSrgb ∧
          t.width = res.width ∧ t.height = res.height) ∧
    (∀ (sc : Swapchain) (e : Int), sc.handle.acquireResult = .error e →
        sc.acquire_texture_view = .err e) ∧
    (∀ (sc : Swapchain) (idx : Nat) (e : Int),
        sc.handle.acquireResult = .ok idx →
        sc.handle.waitResult = .error e →
        sc.acquire_texture_view = .err e) ∧
    (∀ (sc : Swapchain) (idx : Nat),
        sc.handle.acquireResult = .ok idx →
        sc.handle.waitResult = .ok () →
        ∀ tex, sc.textures.get? idx = some tex →
          sc.acquire_texture_view = .ok (createView tex)) ∧
    (∀ (sc : Swapchain) (idx : Nat),
        sc.handle.acquireResult = .ok idx →
        sc.handle.waitResult = .ok () →
        sc.textures.length ≤ idx →
        sc.acquire_texture_view = .panicked) := by
  refine ⟨?_, ?_, ?_, ?_, ?_⟩
  · intro h res sc hc
    simp only [create_swapchain, Except.ok.injEq] at hc
    subst hc
    refine ⟨rfl, by simp, ?_⟩
    intro t ht
    simp only [List.mem_map] at ht
    obtain ⟨image, -, rfl⟩ := ht
    exact ⟨rfl, rfl, rfl⟩
  · intro sc e h
    simp [Swapchain.acquire_texture_view, h]
  · intro sc idx e h1 h2
    simp [Swapchain.acquire_texture_view, h1, h2]
  · intro sc idx h1 h2 tex h3
    rw [List.get?_eq_getElem?] at h3
    simp [Swapchain.acquire_texture_view, h1, h2, h3]
  · intro sc idx h1 h2 h3
    have hnone : sc.textures.get? idx = none := by
      rw [List.get?_eq_none]
      exact h3
    rw [List.get?_eq_getElem?] at hnone
    simp [Swapchain.acquire_texture_view, h1, h2, hnone]

/-- Witness for C3: a concrete two-image swapchain where acquiring index 1
yields the view of the second texture, an out-of-range index panics, an
acquire error is propagated, and the created textures have the claimed
format. -/
theorem swapchain_ring_spec_witness :
    Swapchain.acquire_texture_view
        ⟨⟨[5, 7], .ok 1, .ok ()⟩, ⟨8, 6⟩,
          [textureFromRaw 5 ⟨8, 6⟩, textureFromRaw 7 ⟨8, 6⟩]⟩ =
      .ok (createView (textureFromRaw 7 ⟨8, 6⟩)) ∧
    Swapchain.acquire_texture_view
        ⟨⟨[5, 7], .ok 2, .ok ()⟩, ⟨8, 6⟩,
          [textureFromRaw 5 ⟨8, 6⟩, textureFromRaw 7 ⟨8, 6⟩]⟩ = .panicked ∧
    Swapchain.acquire_texture_view
        ⟨⟨[5, 7], .error (-3), .ok ()⟩, ⟨8, 6⟩,
          [textureFromRaw 5 ⟨8, 6⟩, textureFromRaw 7 ⟨8, 6⟩]⟩ = .err (-3) ∧
    (textureFromRaw 5 ⟨8, 6⟩).format = .Rgba8UnormSrgb :=
  ⟨swapchain_ring_spec.2.2.2.1 _ 1 rfl rfl (textureFromRaw 7 ⟨8, 6⟩) rfl,
   swapchain_ring_spec.2.2.2.2 _ 2 rfl rfl (by decide),
   swapchain_ring_spec.2.1 _ (-3) rfl,
   ((swapchain_ring_spec.1 ⟨[5, 7], .ok 1, .ok ()⟩ ⟨8, 6⟩
        ⟨⟨[5, 7], .ok 1, .ok ()⟩, ⟨8, 6⟩,
          [textureFromRaw 5 ⟨8, 6⟩, textureFromRaw 7 ⟨8, 6⟩]⟩ rfl).2.2
      (textureFromRaw 5 ⟨8, 6⟩) (by decide)).1⟩

/-- C9: the WebXR/bevy session-mode conversion round-trips in one
direction only: web -> bevy -> web is the identity on all three web modes,
but bevy -> web -> bevy is not the identity, since `InlineVR` and
`InlineAR` both map to web `Inline`, which maps back to `InlineVR`.  The
reference-space-type conversions round-trip to the identity in both
directions on the supported types (`Viewer`, `Local`,
`LocalFloor`/`Stage`). -/
theorem session_mode_conversion_roundtrip :
    (∀ m : WebXrSessionMode, xrSessionModeToWeb (xrSessionModeFromWeb m) = m) ∧
    xrSessionModeToWeb .InlineVR = .Inline ∧
    xrSessionModeToWeb .InlineAR = .Inline ∧
    xrSessionModeFromWeb .Inline = .InlineVR ∧
    xrSessionModeFromWeb (xrSessionModeToWeb .InlineAR) = .InlineVR ∧
    ¬ (∀ m : BevyXrSessionMode, xrSessionModeFromWeb (xrSessionModeToWeb m) = m) ∧
    (∀ b : BevyXrReferenceSpaceType,
        xrReferenceSpaceTypeFromWeb (xrReferenceSpaceTypeToWeb b) = some b) ∧
    (∀ w : WebXrReferenceSpaceType,
        (xrReferenceSpaceTypeFromWeb w).map xrReferenceSpaceTypeToWeb =
          (xrReferenceSpaceTypeFromWeb w).map fun _ => w) := by
  decide

/-- C10: both `OpenXrFormFactor` variants are mapped by
`OpenXrContext::new` to the same runtime form factor
(`HEAD_MOUNTED_DISPLAY`), so the two creation paths are equivalent, and
the `OpenXrPlugin::build` fallback from `HeadMountedDisplay` to `Handheld`
re-requests exactly the same system: if the first attempt fails with some
error, the whole build panics with that same error. -/
theorem form_factor_paths_equivalent :
    formFactorToXr .HeadMountedDisplay = formFactorToXr .Handheld ∧
    (∀ systemFn : XrRuntimeFormFactor → Except SysErr Nat,
        openXrContextNewSystem systemFn .HeadMountedDisplay =
          openXrContextNewSystem systemFn .Handheld) ∧
    (∀ (systemFn : XrRuntimeFormFactor → Except SysErr Nat) (e : OpenXrError),
        openXrContextNewSystem systemFn .HeadMountedDisplay = .error e →
        openXrPluginBuild systemFn = .panicked e) := by
  refine ⟨rfl, fun systemFn => rfl, ?_⟩
  intro systemFn e h
  have h2 : openXrContextNewSystem systemFn .Handheld = .error e := by
    rw [show openXrContextNewSystem systemFn .Handheld =
        openXrContextNewSystem systemFn .HeadMountedDisplay from rfl]
    exact h
  simp [openXrPluginBuild, h, h2]

/-- Witness for C10: when the runtime reports the form factor unavailable,
the fallback fails with the same error and the build panics with it. -/
theorem form_factor_paths_equivalent_witness :
    openXrPluginBuild (fun _ => .error .formFactorUnavailable) =
      .panicked .UnavailableFormFactor :=
  form_factor_paths_equivalent.2.2 (fun _ => .error .formFactorUnavailable)
    .UnavailableFormFactor rfl

end BevyXr

namespace BevyXr

/-- Unfolding `storeSinks` over a cons cell. -/
theorem storeSinks_cons (o : AudioOutput) (assets : Nat → Option Nat)
    (c : AudioConfig) (q : List AudioConfig) (sinks : Nat → Option Sink) :
    storeSinks o assets (c :: q) sinks =
      storeSinks o assets q (applySink o assets sinks c) := rfl

/-- Unfolding `storeSpatialSinks` over a cons cell. -/
theorem storeSpatialSinks_cons (o : AudioOutput) (assets : Nat → Option Nat)
    (c : AudioConfig) (q : List AudioConfig)
    (sinks : Nat → Option SpatialSink) :
    storeSpatialSinks o assets (c :: q) sinks =
      storeSpatialSinks o assets q (applySpatialSink o assets sinks c) := rfl

/-- Processing one config leaves every other sink handle untouched. -/
theorem applySink_ne (o : AudioOutput) (assets : Nat → Option Nat)
    (sinks : Nat → Option Sink) (c : AudioConfig) (h : Nat)
    (hne : h ≠ c.sink_handle) :
    applySink o assets sinks c h = sinks h := by
  cases hs : assets c.source_handle <;> cases hp : c.spatial <;>
    cases ho : o.stream_handle <;> simp [applySink, hs, hp, ho, setSink, hne]

/-- Processing one config leaves every other spatial sink handle
untouched. -/
theorem applySpatialSink_ne (o : AudioOutput) (assets : Nat → Option Nat)
    (sinks : Nat → Option SpatialSink) (c : AudioConfig) (h : Nat)
    (hne : h ≠ c.sink_handle) :
    applySpatialSink o assets sinks c h = sinks h := by
  cases hs : assets c.source_handle <;> cases hp : c.spatial <;>
    cases ho : o.stream_handle <;>
    simp [applySpatialSink, hs, hp, ho, setSpatialSink, hne]

/-- A handle not occurring in the queue is untouched by the sink fold. -/
theorem storeSinks_of_not_mem (o : AudioOutput) (assets : Nat → Option Nat) :
    ∀ (q : List AudioConfig) (sinks : Nat → Option Sink) (h : Nat),
      h ∉ (q.map fun c => c.sink_handle) →
      storeSinks o assets q sinks h = sinks h := by
  intro q
  induction q with
  | nil => intro sinks h _; rfl
  | cons c q' ih =>
      intro sinks h hmem
      simp only [List.map_cons, List.mem_cons, not_or] at hmem
      rw [storeSinks_cons, ih _ h hmem.2, applySink_ne _ _ _ _ _ hmem.1]

/-- A handle not occurring in the queue is untouched by the spatial sink
fold. -/
theorem storeSpatialSinks_of_not_mem (o : AudioOutput)
    (assets : Nat → Option Nat) :
    ∀ (q : List AudioConfig) (sinks : Nat → Option SpatialSink) (h : Nat),
      h ∉ (q.map fun c => c.sink_handle) →
      storeSpatialSinks o assets q sinks h = sinks h := by
  intro q
  induction q with
  | nil => intro sinks h _; rfl
  | cons c q' ih =>
      intro sinks h hmem
      simp only [List.map_cons, List.mem_cons, not_or] at hmem
      rw [storeSpatialSinks_cons, ih _ h hmem.2,
        applySpatialSink_ne _ _ _ _ _ hmem.1]

/-- The pop loop of `try_play_queued`, run for exactly the length of the
initial queue segment `q` against a queue `q ++ tail`, drops the loaded
configs of `q`, keeps the unloaded ones behind `tail` in order, folds the
sink stores over `q`, and pops exactly `q.length` times. -/
theorem try_play_queued_aux_eq (o : AudioOutput) (assets : Nat → Option Nat) :
    ∀ (q tail : List AudioConfig) (sinks : Nat → Option Sink)
      (spatial_sinks : Nat → Option SpatialSink) (pops : Nat),
      try_play_queued_aux o assets q.length (q ++ tail) sinks spatial_sinks
          pops =
        ⟨tail ++ q.filter (fun c => (assets c.source_handle).isNone),
         storeSinks o assets q sinks,
         storeSpatialSinks o assets q spatial_sinks,
         pops + q.length⟩ := by
  intro q
  induction q with
  | nil =>
      intro tail sinks spatial_sinks pops
      simp [try_play_queued_aux, storeSinks, storeSpatialSinks]
  | cons c q' ih =>
      intro tail sinks spatial_sinks pops
      simp only [List.length_cons, List.cons_append, try_play_queued_aux]
      rw [storeSinks_cons, storeSpatialSinks_cons]
      cases hsrc : assets c.source_handle with
      | none =>
          simp only [hsrc, List.append_eq]
          rw [List.append_assoc, ih (tail ++ [c])]
          simp [hsrc, applySink, applySpatialSink, List.filter_cons,
            Option.isNone, List.append_assoc, List.singleton_append]
          all_goals omega
      | some src =>
          simp only [hsrc]
          cases hsp : c.spatial with
          | none =>
              simp only [hsp]
              cases hsh : o.stream_handle with
              | none =>
                  simp only [AudioOutput.play_source, hsh, Option.map_none',
                    List.append_eq]
                  rw [ih tail]
                  simp [hsrc, hsp, hsh, applySink, applySpatialSink,
                    List.filter_cons, Option.isNone]
                  all_goals omega
              | some u =>
                  simp only [AudioOutput.play_source, hsh, Option.map_some',
                    List.append_eq]
                  rw [ih tail]
                  simp [hsrc, hsp, hsh, applySink, applySpatialSink, mkSink,
                    setSink, List.filter_cons, Option.isNone]
                  all_goals omega
          | some sp =>
              simp only [hsp]
              cases hsh : o.stream_handle with
              | none =>
                  simp only [AudioOutput.play_spatial_source, hsh,
                    Option.map_none', List.append_eq]
                  rw [ih tail]
                  simp [hsrc, hsp, hsh, applySink, applySpatialSink,
                    List.filter_cons, Option.isNone]
                  all_goals omega
              | some u =>
                  simp only [AudioOutput.play_spatial_source, hsh,
                    Option.map_some', List.append_eq]
                  rw [ih tail]
                  simp [hsrc, hsp, hsh, applySink, applySpatialSink,
                    mkSpatialSink, setSpatialSink, List.filter_cons,
                    Option.isNone]
                  all_goals omega

/-- Closed form of `try_play_queued`. -/
theorem try_play_queued_eq (o : AudioOutput) (assets : Nat → Option Nat)
    (q : List AudioConfig) (sinks : Nat → Option Sink)
    (spatial_sinks : Nat → Option SpatialSink) :
    try_play_queued o assets q sinks spatial_sinks =
      ⟨q.filter (fun c => (assets c.source_handle).isNone),
       storeSinks o assets q sinks,
       storeSpatialSinks o assets q spatial_sinks,
       q.length⟩ := by
  have h := try_play_queued_aux_eq o assets q [] sinks spatial_sinks 0
  simpa [try_play_queued] using h

/-- A loaded, non-spatial config whose sink handle is unique in the queue
ends up stored with its settings. -/
theorem storeSinks_lookup (o : AudioOutput) (assets : Nat → Option Nat) :
    ∀ (q : List AudioConfig) (sinks : Nat → Option Sink) (c : AudioConfig)
      (src : Nat),
      c ∈ q → assets c.source_handle = some src → c.spatial = none →
      o.stream_handle = some () →
      (q.map fun x => x.sink_handle).Nodup →
      storeSinks o assets q sinks c.sink_handle =
        some (mkSink src c.settings) := by
  intro q
  induction q with
  | nil => intro _ _ _ hmem; cases hmem
  | cons d q' ih =>
      intro sinks c src hmem hsrc hsp hsh hnd
      simp only [List.map_cons, List.nodup_cons] at hnd
      rcases List.mem_cons.mp hmem with rfl | hmem'
      · rw [storeSinks_cons, storeSinks_of_not_mem _ _ _ _ _ hnd.1]
        simp [applySink, hsrc, hsp, hsh, setSink]
      · rw [storeSinks_cons]
        exact ih _ c src hmem' hsrc hsp hsh hnd.2

/-- A loaded, spatial config whose sink handle is unique in the queue ends
up stored with its settings and spatial parameters. -/
theorem storeSpatialSinks_lookup (o : AudioOutput)
    (assets : Nat → Option Nat) :
    ∀ (q : List AudioConfig) (sinks : Nat → Option SpatialSink)
      (c : AudioConfig) (src : Nat) (sp : SpatialSettings),
      c ∈ q → assets c.source_handle = some src → c.spatial = some sp →
      o.stream_handle = some () →
      (q.map fun x => x.sink_handle).Nodup →
      storeSpatialSinks o assets q sinks c.sink_handle =
        some (mkSpatialSink src sp c.settings) := by
  intro q
  induction q with
  | nil => intro _ _ _ _ hmem; cases hmem
  | cons d q' ih =>
      intro sinks c src sp hmem hsrc hsp hsh hnd
      simp only [List.map_cons, List.nodup_cons] at hnd
      rcases List.mem_cons.mp hmem with rfl | hmem'
      · rw [storeSpatialSinks_cons,
          storeSpatialSinks_of_not_mem _ _ _ _ _ hnd.1]
        simp [applySpatialSink, hsrc, hsp, hsh, setSpatialSink]
      · rw [storeSpatialSinks_cons]
        exact ih _ c src sp hmem' hsrc hsp hsh hnd.2

end BevyXr

namespace BevyXr

/-- With no output stream, processing a config never touches the sink map. -/
theorem storeSinks_no_stream (assets : Nat → Option Nat) :
    ∀ (q : List AudioConfig) (sinks : Nat → Option Sink),
      storeSinks ⟨none⟩ assets q sinks = sinks := by
  intro q
  induction q with
  | nil => intro sinks; rfl
  | cons c q' ih =>
      intro sinks
      rw [storeSinks_cons, ih]
      cases hs : assets c.source_handle <;> cases hp : c.spatial <;>
        simp [applySink, hs, hp]

/-- With no output stream, processing a config never touches the spatial
sink map. -/
theorem storeSpatialSinks_no_stream (assets : Nat → Option Nat) :
    ∀ (q : List AudioConfig) (sinks : Nat → Option SpatialSink),
      storeSpatialSinks ⟨none⟩ assets q sinks = sinks := by
  intro q
  induction q with
  | nil => intro sinks; rfl
  | cons c q' ih =>
      intro sinks
      rw [storeSpatialSinks_cons, ih]
      cases hs : assets c.source_handle <;> cases hp : c.spatial <;>
        simp [applySpatialSink, hs, hp]

/-- C7: every call to `try_play_queued` with a queue of length `n` pops
exactly `n` configs; the resulting queue is exactly the subsequence of
configs whose source asset is not yet loaded (so loaded configs are
removed permanently, the queue never grows, and not-yet-loaded configs
keep their relative order); and when an output stream exists, each loaded
config gets a sink with its speed and volume stored under its sink handle
(stated here for queues whose sink handles are distinct). -/
theorem audio_try_play_queued_spec (o : AudioOutput)
    (assets : Nat → Option Nat) (q : List AudioConfig)
    (sinks : Nat → Option Sink) (spatial_sinks : Nat → Option SpatialSink) :
    (try_play_queued o assets q sinks spatial_sinks).queue =
        q.filter (fun c => (assets c.source_handle).isNone) ∧
    (try_play_queued o assets q sinks spatial_sinks).pops = q.length ∧
    (try_play_queued o assets q sinks spatial_sinks).queue.length ≤
        q.length ∧
    (∀ c ∈ q, ∀ src : Nat, assets c.source_handle = some src →
        c.spatial = none → o.stream_handle = some () →
        (q.map fun x => x.sink_handle).Nodup →
        (try_play_queued o assets q sinks spatial_sinks).sinks c.sink_handle =
          some (mkSink src c.settings)) ∧
    (∀ c ∈ q, ∀ (src : Nat) (sp : SpatialSettings),
        assets c.source_handle = some src →
        c.spatial = some sp → o.stream_handle = some () →
        (q.map fun x => x.sink_handle).Nodup →
        (try_play_queued o assets q sinks
            spatial_sinks).spatial_sinks c.sink_handle =
          some (mkSpatialSink src sp c.settings)) := by
  rw [try_play_queued_eq]
  refine ⟨rfl, rfl, ?_, ?_, ?_⟩
  · exact List.length_filter_le _ q
  · intro c hc src hsrc hsp hsh hnd
    exact storeSinks_lookup o assets q sinks c src hc hsrc hsp hsh hnd
  · intro c hc src sp hsrc hsp hsh hnd
    exact storeSpatialSinks_lookup o assets q spatial_sinks c src sp hc hsrc
      hsp hsh hnd

/-- Witness for C7 at a concrete two-element queue whose first config is
loaded (asset 10 under handle 1) and second is not: one pop per config,
the loaded config is removed and stored, the unloaded one is kept. -/
theorem audio_try_play_queued_spec_witness :
    (try_play_queued ⟨some ()⟩ (fun h => if h = 1 then some 10 else none)
        [⟨1, 100, ⟨false, 2, 3⟩, none⟩, ⟨2, 101, ⟨true, 1, 1⟩, none⟩]
        (fun _ => none) (fun _ => none)).queue =
      [⟨2, 101, ⟨true, 1, 1⟩, none⟩] ∧
    (try_play_queued ⟨some ()⟩ (fun h => if h = 1 then some 10 else none)
        [⟨1, 100, ⟨false, 2, 3⟩, none⟩, ⟨2, 101, ⟨true, 1, 1⟩, none⟩]
        (fun _ => none) (fun _ => none)).pops = 2 ∧
    (try_play_queued ⟨some ()⟩ (fun h => if h = 1 then some 10 else none)
        [⟨1, 100, ⟨false, 2, 3⟩, none⟩, ⟨2, 101, ⟨true, 1, 1⟩, none⟩]
        (fun _ => none) (fun _ => none)).sinks 100 =
      some (mkSink 10 ⟨false, 2, 3⟩) := by
  have h := audio_try_play_queued_spec ⟨some ()⟩
    (fun h => if h = 1 then some 10 else none)
    [⟨1, 100, ⟨false, 2, 3⟩, none⟩, ⟨2, 101, ⟨true, 1, 1⟩, none⟩]
    (fun _ => none) (fun _ => none)
  refine ⟨?_, h.2.1, ?_⟩
  · rw [h.1]; rfl
  · exact h.2.2.2.1 ⟨1, 100, ⟨false, 2, 3⟩, none⟩ (by simp) 10 rfl rfl rfl
      (by simp)

/-- C8: with no audio output device (`stream_handle = None`),
`play_source` and `play_spatial_source` return `None` for every input, and
`try_play_queued` still removes every loaded config from the queue without
creating any sink: loaded audio is silently discarded. -/
theorem audio_no_device_spec (assets : Nat → Option Nat)
    (q : List AudioConfig) (sinks : Nat → Option Sink)
    (spatial_sinks : Nat → Option SpatialSink) (src : Nat) (rp : Bool)
    (sp : SpatialSettings) :
    AudioOutput.play_source ⟨none⟩ src rp = none ∧
    AudioOutput.play_spatial_source ⟨none⟩ src rp sp = none ∧
    (try_play_queued ⟨none⟩ assets q sinks spatial_sinks).queue =
        q.filter (fun c => (assets c.source_handle).isNone) ∧
    (try_play_queued ⟨none⟩ assets q sinks spatial_sinks).sinks = sinks ∧
    (try_play_queued ⟨none⟩ assets q sinks
        spatial_sinks).spatial_sinks = spatial_sinks := by
  rw [try_play_queued_eq]
  exact ⟨rfl, rfl, rfl, storeSinks_no_stream assets q sinks,
    storeSpatialSinks_no_stream assets q spatial_sinks⟩

end BevyXr

namespace BevyXr

/-- C1: for every field of view, every tangent function and every positive
near plane, `get_projection_matrix` takes the far-plane-at-infinity branch
(since its hard-coded `far_z = -1` is at most any positive near) and
returns exactly the Khronos `xr_linear` infinite projection with the
claimed entries, left-multiplied by the z-reversal matrix; the z-reversal
matrix maps a homogeneous vector `(x, y, z, w)` to `(x, y, -z + w, w)`.
The normal-projection branch is never taken. -/
theorem mat4Apply_eq (m : Mat4) (v : Fin 4 → ℚ) (i : Fin 4) :
    mat4Apply m v i =
      m i 0 * v 0 + m i 1 * v 1 + m i 2 * v 2 + m i 3 * v 3 := by
  simp [mat4Apply, Fin.sum_univ_four]

theorem projection_matrix_infinite_branch (tan : ℚ → ℚ) (p : XRProjection)
    (h : 0 < p.near) :
    get_projection_matrix tan p =
      mat4Mul z_reversal
        (claimedInfiniteProjection (tan p.fov.angle_left)
          (tan p.fov.angle_right) (tan p.fov.angle_up)
          (tan p.fov.angle_down) p.near) ∧
    (∀ v : Fin 4 → ℚ,
        mat4Apply z_reversal v = ![v 0, v 1, -(v 2) + v 3, v 3]) := by
  constructor
  · have hcond : (-1 : ℚ) ≤ p.near := by linarith
    simp only [get_projection_matrix, Bool.false_eq_true, if_false, hcond,
      if_true]
    apply congrArg (mat4Mul z_reversal)
    funext i j
    fin_cases i <;> fin_cases j <;>
      first
        | rfl
        | (show -(p.near + 0) = -p.near
           ring)
  · intro v
    funext i
    rw [mat4Apply_eq]
    fin_cases i
    · show (1 : ℚ) * v 0 + 0 * v 1 + 0 * v 2 + 0 * v 3 = v 0
      ring
    · show (0 : ℚ) * v 0 + 1 * v 1 + 0 * v 2 + 0 * v 3 = v 1
      ring
    · show (0 : ℚ) * v 0 + 0 * v 1 + -1 * v 2 + 1 * v 3 = -(v 2) + v 3
      ring
    · show (0 : ℚ) * v 0 + 0 * v 1 + 0 * v 2 + 1 * v 3 = v 3
      ring

/-- Witness for C1 at the identity tangent function, a concrete symmetric
field of view and `near = 1`. -/
theorem projection_matrix_infinite_branch_witness :
    (0 : ℚ) < 1 ∧
    get_projection_matrix (fun x => x) ⟨1, 1000, ⟨-1, 1, 1, -1⟩⟩ =
      mat4Mul z_reversal (claimedInfiniteProjection (-1) 1 1 (-1) 1) :=
  ⟨by norm_num,
   (projection_matrix_infinite_branch (fun x => x) ⟨1, 1000, ⟨-1, 1, 1, -1⟩⟩
      (by norm_num)).1⟩

end BevyXr

namespace BevyXr

/-- Witness for C9 at the concrete modes: the one-way round trip on
`Inline` and the collapsed reverse trip of `InlineAR`. -/
theorem session_mode_conversion_roundtrip_witness :
    xrSessionModeToWeb (xrSessionModeFromWeb .Inline) = .Inline ∧
    xrSessionModeFromWeb (xrSessionModeToWeb .InlineAR) = .InlineVR :=
  ⟨session_mode_conversion_roundtrip.1 .Inline,
   session_mode_conversion_roundtrip.2.2.2.2.1⟩

end BevyXr
